import Mathlib

/-!
A shallow embedding of the store application (models in `store/dev.py`,
serializers in `store/serializers.py`, views in `store/views.py`) together
with proofs about the claims of the specification.

Conventions of the embedding:
* Django rows become Lean structures; the database becomes a `Store` record of
  lists of rows.
* Money (`DecimalField`) is embedded as `Rat`.
* Python integers are embedded as `Int` (a `PositiveIntegerField` constrains
  input validation, but the in-memory Python value produced by the views can
  still be any integer, which matters for `record_sale`).
* Timestamps are embedded at day granularity as `Int` (the analytics claims
  only compare dates and group by day).
* A view that answers a non-2xx response is embedded as `Except ApiError _`.
-/

/-- `User.ROLE_CHOICES` (dev.py:15-19).  The registration serializer's `role`
field is a choice field, so any other string is rejected at input validation;
the embedding therefore only carries the three valid roles. -/
inductive Role where
  | SELLER
  | CONSUMER
  | ADMIN
deriving DecidableEq, Repr

/-- Error taxonomy of the HTTP layer: DRF `ValidationError` (a 400 naming the
offending field), `PermissionDenied`, and a 404 from `get_object`. -/
inductive ApiError where
  | validationError (field : String)
  | permissionDenied
  | notFound
deriving DecidableEq, Repr

/-- `store.User` (dev.py:7-96).  `is_staff` is the Django `AbstractUser` flag,
distinct from the application `role` column. -/
structure User where
  uid : Nat
  username : String
  email : String
  role : Role
  store_name : Option String := none
  is_staff : Bool := false
  date_joined : Int := 0
deriving DecidableEq, Repr

/-- `User.is_seller` (dev.py:83-86). -/
def User.is_seller (u : User) : Bool := u.role = Role.SELLER

/-- `User.is_admin_user` (dev.py:93-96): role check, not the staff flag. -/
def User.is_admin_user (u : User) : Bool := u.role = Role.ADMIN

/-- `store.Category` (dev.py:99-167).  `parent_category` stores the id of the
parent row (`NULL` at a root). -/
structure Category where
  cid : Nat
  name : String
  slug : String
  parent_category : Option Nat := none
  is_active : Bool := true
deriving DecidableEq, Repr

/-- `store.Product` (dev.py:170-287).  `stock_quantity` and `sales_count` are
declared `PositiveIntegerField`, but the embedding keeps them as `Int` because
the view code mutates the Python attribute directly and nothing clamps the
result. -/
structure Product where
  pid : Nat
  name : String
  price : Rat
  sku : String
  category : Nat
  seller : Nat
  stock_quantity : Int
  is_active : Bool := true
  is_featured : Bool := false
  sales_count : Int := 0
deriving DecidableEq, Repr

/-- `Product.is_low_stock` (dev.py:284-287). -/
def Product.is_low_stock (p : Product) : Bool := p.stock_quantity ≤ 10

/-- `store.ProductSale` (dev.py:338-410). -/
structure ProductSale where
  sid : Nat
  product : Nat
  seller : Nat
  buyer : Option Nat := none
  quantity : Int
  price_at_sale : Rat
  sale_date : Int
deriving DecidableEq, Repr

/-- The relational state shared by the views: one list per table, plus the
clock used for `timezone.now()`. -/
structure Store where
  users : List User := []
  categories : List Category := []
  products : List Product := []
  sales : List ProductSale := []
  now : Int := 0
deriving DecidableEq, Repr

/-- Primary-key lookup in the products table. -/
def Store.findProduct (st : Store) (pid : Nat) : Option Product :=
  st.products.find? (fun p => p.pid = pid)

/-- `product.save()`: write the mutated row back over the row with the same
primary key. -/
def Store.saveProduct (st : Store) (p : Product) : Store :=
  { st with products := st.products.map (fun q => if q.pid = p.pid then p else q) }

/-- `ProductSaleSerializer.validate` (serializers.py:213-229).  `attrs` holds
only the writable deserialized fields; `productAttr` is `attrs.get('product')`.
Python truthiness: the stock comparison runs only under
`if product and quantity:`, so it is skipped when the quantity is `0`. -/
def productSaleValidate (productAttr : Option Product) (quantity : Int) :
    Except ApiError Unit :=
  match productAttr with
  | some product =>
      if quantity ≠ 0 ∧ quantity > product.stock_quantity then
        Except.error (ApiError.validationError "quantity")
      else
        Except.ok ()
  | none => Except.ok ()

/-- `ProductViewSet.record_sale` (views.py:228-265).

The serializer declares `product` as `PrimaryKeyRelatedField(read_only=True)`
(serializers.py:191), so the deserialized `attrs` never contain the product;
the call below passes `none` for `attrs.get('product')`, exactly as the DRF
machinery does.  `quantity` maps from the model's `PositiveIntegerField` to an
integer field with a lower bound of `0`, which is the only input validation
that fires.  On success the sale row is inserted, then the product row is
mutated and saved; there is no enclosing transaction.

Returns the new store and the `remaining_stock` figure of the response. -/
def recordSale (st : Store) (pid : Nat) (quantity : Int) (buyer : Option Nat) :
    Except ApiError (Store × Int) :=
  match st.findProduct pid with
  | none => Except.error ApiError.notFound
  | some product =>
      if quantity < 0 then
        Except.error (ApiError.validationError "quantity")
      else
        match productSaleValidate none quantity with
        | Except.error e => Except.error e
        | Except.ok () =>
            let sale : ProductSale :=
              { sid := st.sales.length
                product := product.pid
                seller := product.seller
                buyer := buyer
                quantity := quantity
                price_at_sale := product.price
                sale_date := st.now }
            let product' :=
              { product with
                  stock_quantity := product.stock_quantity - quantity
                  sales_count := product.sales_count + quantity }
            let st' := { st with sales := st.sales ++ [sale] }
            Except.ok (st'.saveProduct product', product'.stock_quantity)

/-! ## Registration (`UserViewSet.create`) -/

/-- The deserialized registration payload.  `role` comes from the serializer's
choice field (invalid strings are rejected before any of the logic modelled
here runs); `store_name` is the raw `request.data.get('store_name')` value —
it is *not* a field of `UserRegistrationSerializer` (serializers.py:24-33). -/
structure RegRequest where
  username : String
  email : String
  password : String
  password2 : String
  role : Role
  store_name : Option String := none
deriving DecidableEq, Repr

/-- Python truthiness of `request.data.get('store_name')`: absent and the
empty string are both falsy. -/
def RegRequest.storeNamePresent (req : RegRequest) : Bool :=
  match req.store_name with
  | some s => s ≠ ""
  | none => false

/-- `UserViewSet.create` (views.py:45-80) composed with
`UserRegistrationSerializer.validate` and `.create` (serializers.py:35-58).

Order of effects, as in the source: the serializer validates (password match,
username uniqueness); the view copies `validated_data` and forces
`role := CONSUMER`; if the raw request asked for `SELLER` it demands a truthy
`store_name` and then sets `role := SELLER`; finally
`serializer.save(**validated_data)` builds the user from the serializer's
field set — which does not contain `store_name`, so the stored `store_name`
is always `none`. -/
def registerUser (st : Store) (req : RegRequest) : Except ApiError (Store × User) :=
  if req.password ≠ req.password2 then
    Except.error (ApiError.validationError "password")
  else if st.users.any (fun u => u.username = req.username) then
    Except.error (ApiError.validationError "username")
  else if req.role = Role.SELLER ∧ ¬ req.storeNamePresent then
    Except.error (ApiError.validationError "store_name")
  else
    let finalRole := if req.role = Role.SELLER then Role.SELLER else Role.CONSUMER
    let user : User :=
      { uid := st.users.length
        username := req.username
        email := req.email
        role := finalRole
        store_name := none
        is_staff := false
        date_joined := st.now }
    Except.ok ({ st with users := st.users ++ [user] }, user)

/-! ## Category creation and hierarchy -/

/-- Modelled from the spec: src contains no slug-generation code (the model
comment in dev.py:120 defers it to "save method or admin", and neither is in
the sources; `CategorySerializer` lists `slug` read-only).  Spec §4.1: the
slug is obtained by "lower-casing/dashifying the name". -/
def slugify (name : String) : String :=
  String.mk (name.data.map (fun c => if c = ' ' then '-' else c.toLower))

/-- Modelled from the spec: "appending an incrementing numeric suffix on
collision" (§4.1).  Tries `base`, then `base-1`, `base-2`, …; with `n` slugs
taken, one of the first `n + 1` candidates is necessarily free. -/
def uniqueSlug (taken : List String) (base : String) : String :=
  if taken.contains base then
    match (List.range (taken.length + 1)).find?
        (fun i => !(taken.contains (base ++ "-" ++ toString (i + 1)))) with
    | some i => base ++ "-" ++ toString (i + 1)
    | none => base
  else base

/-- `create_category`: `CategorySerializer` carries a uniqueness validator for
`name` (dev.py:107-111, `unique=True`), so a duplicate name is a
`ValidationError` before anything else; the slug derivation itself is
modelled from the spec (see `slugify`, `uniqueSlug`). -/
def createCategory (st : Store) (name : String) (parent : Option Nat) :
    Except ApiError (Store × Category) :=
  if st.categories.any (fun c => c.name = name) then
    Except.error (ApiError.validationError "name")
  else
    let slug := uniqueSlug (st.categories.map (fun c => c.slug)) (slugify name)
    let cat : Category :=
      { cid := st.categories.length
        name := name
        slug := slug
        parent_category := parent
        is_active := true }
    Except.ok ({ st with categories := st.categories ++ [cat] }, cat)

/-- Primary-key lookup in the categories table (an FK dereference of
`parent_category`). -/
def Store.findCategory (st : Store) (cid : Nat) : Option Category :=
  st.categories.find? (fun c => c.cid = cid)

/-- The `while parent:` loop of `Category.get_full_path` (dev.py:160-167),
with explicit fuel.  `none` means the loop has not reached a root within
`fuel` dereferences — the source loop has no visited set or depth bound, so a
result of `none` at every fuel models non-termination.  `path` is the
accumulator; each parent name is inserted at position 0. -/
def fullPathLoop (st : Store) : Nat → Option Nat → List String → Option (List String)
  | _, none, path => some path
  | 0, some _, _ => none
  | fuel + 1, some pid, path =>
      match st.findCategory pid with
      | none => some path
      | some parent => fullPathLoop st fuel parent.parent_category (parent.name :: path)

/-- `Category.get_full_path` (dev.py:160-167): start from `[self.name]` and
walk the parent chain. -/
def getFullPath (st : Store) (c : Category) (fuel : Nat) : Option (List String) :=
  fullPathLoop st fuel c.parent_category [c.name]

/-- `cat.subcategories.all()`: the rows whose `parent_category` is `cid`,
as ids. -/
def subcatIds (cats : List Category) (cid : Nat) : List Nat :=
  (cats.filter (fun c => c.parent_category = some cid)).map (fun c => c.cid)

/-- `get_all_subcategories` (views.py:132-136), with explicit fuel for the
unbounded recursion: `subcategories = list(children)`, then each child's
recursive result is appended in order. -/
def getAllSubcategories (cats : List Category) : Nat → Nat → List Nat
  | 0, _ => []
  | fuel + 1, cid =>
      let children := subcatIds cats cid
      children ++ children.flatMap (fun c => getAllSubcategories cats fuel c)

/-- `CategoryViewSet.products` (views.py:123-152): the category itself plus
all recursively collected subcategories, then
`Product.objects.filter(category__in=all_categories, is_active=True)`.
Pagination and serialization are presentation only and not modelled. -/
def categoryProducts (st : Store) (fuel : Nat) (cid : Nat) : List Product :=
  let all_categories := cid :: getAllSubcategories st.categories fuel cid
  st.products.filter (fun p => all_categories.contains p.category && p.is_active)

/-! ## Catalog mutation (`ProductViewSet.perform_create` / `update`) -/

/-- The writable fields of `ProductListSerializer` (serializers.py:157-165):
`sales_count`, `created_at` and `seller` are read-only. -/
structure ProductInput where
  name : String
  price : Rat
  sku : String
  category : Nat
  stock_quantity : Int
  is_active : Bool := true
  is_featured : Bool := false
deriving DecidableEq, Repr

/-- Serializer validation for a product payload: `price` carries the model's
`MinValueValidator(Decimal('0.01'))` (dev.py:190-195), `stock_quantity` maps
from `PositiveIntegerField` to a lower bound of `0`, `sku` carries a
uniqueness validator (dev.py:198-202), and `category` must reference an
existing row.  `excludePid` is the instance's own pk on update. -/
def validateProductInput (st : Store) (input : ProductInput)
    (excludePid : Option Nat) : Except ApiError Unit :=
  if input.price < mkRat 1 100 then
    Except.error (ApiError.validationError "price")
  else if input.stock_quantity < 0 then
    Except.error (ApiError.validationError "stock_quantity")
  else if st.products.any (fun q => q.sku = input.sku ∧ some q.pid ≠ excludePid) then
    Except.error (ApiError.validationError "sku")
  else if (st.findCategory input.category).isNone then
    Except.error (ApiError.validationError "category")
  else
    Except.ok ()

/-- Product creation: DRF validates the payload, then
`ProductViewSet.perform_create` (views.py:204-211) rejects non-sellers and
saves with `seller := request.user`.  `sales_count` is read-only and starts at
its model default `0`. -/
def createProduct (st : Store) (user : User) (input : ProductInput) :
    Except ApiError (Store × Product) :=
  match validateProductInput st input none with
  | Except.error e => Except.error e
  | Except.ok () =>
      if ¬ user.is_seller then
        Except.error ApiError.permissionDenied
      else
        let p : Product :=
          { pid := st.products.length
            name := input.name
            price := input.price
            sku := input.sku
            category := input.category
            seller := user.uid
            stock_quantity := input.stock_quantity
            is_active := input.is_active
            is_featured := input.is_featured
            sales_count := 0 }
        Except.ok ({ st with products := st.products ++ [p] }, p)

/-- `ProductViewSet.update` (views.py:213-226): only the owner or staff may
update; then the serializer replaces the writable fields, leaving the
read-only `sales_count` and the `seller` untouched. -/
def updateProduct (st : Store) (user : User) (pid : Nat) (input : ProductInput) :
    Except ApiError (Store × Product) :=
  match st.findProduct pid with
  | none => Except.error ApiError.notFound
  | some product =>
      if product.seller ≠ user.uid ∧ ¬ user.is_staff then
        Except.error ApiError.permissionDenied
      else
        match validateProductInput st input (some pid) with
        | Except.error e => Except.error e
        | Except.ok () =>
            let product' :=
              { product with
                  name := input.name
                  price := input.price
                  sku := input.sku
                  category := input.category
                  stock_quantity := input.stock_quantity
                  is_active := input.is_active
                  is_featured := input.is_featured }
            Except.ok (st.saveProduct product', product')

/-- The operations of claim C2's "any sequence of operations". -/
inductive StoreOp where
  | createProd (user : User) (input : ProductInput)
  | updateProd (user : User) (pid : Nat) (input : ProductInput)
  | sale (pid : Nat) (quantity : Int) (buyer : Option Nat)
deriving DecidableEq, Repr

/-- Apply one operation; a rejected request leaves the store unchanged. -/
def applyOp (st : Store) : StoreOp → Store
  | StoreOp.createProd u i =>
      match createProduct st u i with
      | Except.ok (st2, _) => st2
      | Except.error _ => st
  | StoreOp.updateProd u pid i =>
      match updateProduct st u pid i with
      | Except.ok (st2, _) => st2
      | Except.error _ => st
  | StoreOp.sale pid q b =>
      match recordSale st pid q b with
      | Except.ok (st2, _) => st2
      | Except.error _ => st

/-- Apply a sequence of operations in order. -/
def applyOps (st : Store) (ops : List StoreOp) : Store :=
  ops.foldl applyOp st

/-! ## Analytics (`AnalyticsViewSet`) -/

/-- Django `Sum(expr)` over a queryset of decimals: `None` when there are no
rows. -/
def aggSum (l : List Rat) : Option Rat :=
  if l.isEmpty then none else some l.sum

/-- Django `Sum(expr)` over a queryset of integers: `None` when there are no
rows. -/
def aggSumInt (l : List Int) : Option Int :=
  if l.isEmpty then none else some l.sum

/-- Django `Avg(expr)`: `None` when there are no rows. -/
def aggAvg (l : List Rat) : Option Rat :=
  if l.isEmpty then none else some (l.sum / l.length)

/-- The `summary` aggregate of `AnalyticsViewSet.sales_report`
(views.py:401-406). -/
structure SalesReportSummary where
  total_sales : Nat
  total_revenue : Option Rat
  average_sale : Option Rat
  total_units : Option Int
deriving DecidableEq, Repr

/-- One row of the `daily_breakdown` group-by (views.py:409-414); a group
always holds at least one sale, so its aggregates are plain values. -/
structure DailyRow where
  sale_day : Int
  daily_revenue : Rat
  daily_sales : Nat
deriving DecidableEq, Repr

/-- `sales.extra({'sale_day': "date(sale_date)"}).values('sale_day').annotate(...)
.order_by('sale_day')`: the distinct sale days in ascending order, each with
its revenue sum and row count. -/
def dailyBreakdown (sales : List ProductSale) : List DailyRow :=
  let days := ((sales.map (fun s => s.sale_date)).dedup).insertionSort (fun a b => a ≤ b)
  days.map (fun d =>
    let group := sales.filter (fun s => s.sale_date = d)
    { sale_day := d
      daily_revenue := (group.map (fun s => s.price_at_sale)).sum
      daily_sales := group.length })

/-- Response body of `AnalyticsViewSet.sales_report`. -/
structure SalesReport where
  summary : SalesReportSummary
  daily_breakdown : List DailyRow
deriving DecidableEq, Repr

/-- `AnalyticsViewSet.sales_report` (views.py:384-420): seller-only; filters
the caller's sales to `sale_date ≥ now - days`, aggregates with
`Count`/`Sum`/`Avg`, and groups per day. -/
def salesReport (st : Store) (user : User) (days : Nat) :
    Except ApiError SalesReport :=
  if ¬ user.is_seller then
    Except.error ApiError.permissionDenied
  else
    let start_date := st.now - (days : Int)
    let sales := st.sales.filter
      (fun s => s.seller = user.uid && s.sale_date ≥ start_date)
    Except.ok
      { summary :=
          { total_sales := sales.length
            total_revenue := aggSum (sales.map (fun s => s.price_at_sale))
            average_sale := aggAvg (sales.map (fun s => s.price_at_sale))
            total_units := aggSumInt (sales.map (fun s => s.quantity)) }
        daily_breakdown := dailyBreakdown sales }

/-- The `platform_overview` block of `AnalyticsViewSet.admin_dashboard`
(views.py:449-456).  The surrounding response also lists recent sales, new
users and top sellers; no claim refers to those parts, so only the totals are
modelled. -/
structure PlatformOverview where
  total_users : Nat
  total_sellers : Nat
  total_products : Nat
  total_sales : Nat
  total_revenue : Rat
deriving DecidableEq, Repr

/-- `AnalyticsViewSet.admin_dashboard` (views.py:440-481): the gate is
`request.user.is_staff` — the Django staff flag, not the application role.
`total_revenue` applies `... or 0` to the aggregate, so an empty sales table
reports `0` here. -/
def adminDashboard (st : Store) (user : User) :
    Except ApiError PlatformOverview :=
  if ¬ user.is_staff then
    Except.error ApiError.permissionDenied
  else
    Except.ok
      { total_users := st.users.length
        total_sellers := (st.users.filter (fun u => u.role = Role.SELLER)).length
        total_products := st.products.length
        total_sales := st.sales.length
        total_revenue := (aggSum (st.sales.map (fun s => s.price_at_sale))).getD 0 }

/-! ## Concrete fixtures -/

/-- A seller account. -/
def sellerAda : User :=
  { uid := 0, username := "ada", email := "ada@example.com", role := Role.SELLER }

/-- A root category. -/
def electronicsCat : Category :=
  { cid := 0, name := "Electronics", slug := "electronics" }

/-- A product with 5 units in stock. -/
def widget : Product :=
  { pid := 0, name := "Widget", price := 10, sku := "W-1", category := 0,
    seller := 0, stock_quantity := 5 }

/-- A store holding `sellerAda`, `electronicsCat` and `widget`. -/
def stockStore : Store :=
  { users := [sellerAda], categories := [electronicsCat], products := [widget] }

/-- The `widget` row after an accepted sale of `q` units. -/
def widgetAfter (q : Int) : Product :=
  { widget with stock_quantity := widget.stock_quantity - q, sales_count := q }

/-- The sale row `record_sale` inserts for a quantity-`q` request on
`stockStore`. -/
def widgetSale (sid : Nat) (q : Int) : ProductSale :=
  { sid := sid, product := 0, seller := 0, buyer := none, quantity := q,
    price_at_sale := 10, sale_date := 0 }

/-- `stockStore` after one accepted sale of 3 units. -/
def stockStoreMid : Store :=
  { stockStore with
      sales := [widgetSale 0 3]
      products := [widgetAfter 3] }

/-- Claim C1 (code bug): the claim says a `record_sale` with `qty` above the
stock, or below 1, fails with `ValidationError`, creates no sale row and
leaves the product unchanged.  The code violates this: the serializer's
`product` field is read-only so the stock check in
`ProductSaleSerializer.validate` never sees the product and is skipped.  With
stock 5, a quantity-10 request is accepted, inserts a sale row and drives the
stock to -5; a quantity-0 request is also accepted and inserts a quantity-0
sale row. -/
theorem claim_C1_record_sale_no_stock_check :
    recordSale stockStore 0 10 none =
      Except.ok
        ({ stockStore with
            sales := [widgetSale 0 10]
            products := [widgetAfter 10] }, -5) ∧
    recordSale stockStore 0 0 none =
      Except.ok
        ({ stockStore with
            sales := [widgetSale 0 0]
            products := [widgetAfter 0] }, 5) := by
  constructor <;> rfl

/-- Store with a seller and a category but no product yet, for replaying an
operation sequence. -/
def c2Base : Store :=
  { users := [sellerAda], categories := [electronicsCat] }

/-- The creation payload whose accepted form is exactly `widget`. -/
def c2Input : ProductInput :=
  { name := "Widget", price := 10, sku := "W-1", category := 0,
    stock_quantity := 5 }

/-- Claim C2 (code bug): the claim says that after any sequence of product
creations, updates and recorded sales, `stock_quantity` stays ≥ 0.  The code
violates it: creating a product with stock 5 and then recording a sale of 10
(accepted because of the dead stock check, see C1) leaves the row at
`stock_quantity = -5`, despite the model declaring the column
`PositiveIntegerField`. -/
theorem claim_C2_stock_invariant_broken :
    (applyOps c2Base
        [StoreOp.createProd sellerAda c2Input,
         StoreOp.sale 0 10 none]).findProduct 0 = some (widgetAfter 10) ∧
    (widgetAfter 10).stock_quantity = -5 := by
  constructor <;> decide

/-- Claim C3 (code bug): the claim says the stock-check/decrement/increment is
an atomic unit and that of concurrent sales exceeding stock only a fitting
subset is accepted, stock never negative.  The code has no transaction or
locking at all, and the stock check itself is dead (see C1): already under the
serialized schedule — one possible interleaving of two concurrent callers —
two quantity-3 sales against stock 5 are BOTH accepted (sum 6 > 5) and the
stock ends at -1. -/
theorem claim_C3_oversell_both_accepted :
    recordSale stockStore 0 3 none = Except.ok (stockStoreMid, 2) ∧
    recordSale stockStoreMid 0 3 none =
      Except.ok
        ({ stockStore with
            sales := [widgetSale 0 3, widgetSale 1 3]
            products := [{ widget with stock_quantity := -1, sales_count := 6 }] },
          -1) := by
  constructor <;> rfl

/-- A SELLER registration request that does supply a store name. -/
def sellerReq : RegRequest :=
  { username := "amina", email := "amina@example.com", password := "s3cretpw",
    password2 := "s3cretpw", role := Role.SELLER,
    store_name := some "Tech Galaxy" }

/-- The user row `registerUser` creates for `sellerReq`. -/
def aminaUser : User :=
  { uid := 0, username := "amina", email := "amina@example.com",
    role := Role.SELLER, store_name := none, is_staff := false,
    date_joined := 0 }

/-- Claim C4 (code bug): the claim says a SELLER registration without
store_name fails with a field error naming `store_name` (true in the code),
and that with a store_name it succeeds with stored role SELLER (true) and a
non-empty stored store_name.  The last part is violated: `store_name` is not
a field of `UserRegistrationSerializer`, the view only checks the raw request
value and never saves it, so the stored `store_name` is `none`. -/
theorem claim_C4_store_name_not_persisted :
    registerUser {} { sellerReq with store_name := none } =
      Except.error (ApiError.validationError "store_name") ∧
    registerUser {} sellerReq = Except.ok ({ users := [aminaUser] }, aminaUser) ∧
    aminaUser.role = Role.SELLER ∧
    aminaUser.store_name = none := by
  refine ⟨?_, ?_, rfl, rfl⟩ <;> rfl

/-- Claim C10 (confirmed): every registration whose (valid) requested role is
not SELLER passes the view's checks and is stored with role CONSUMER — the
requested role (in particular ADMIN) is silently downgraded, never honored
and never rejected. -/
theorem claim_C10_non_seller_role_forced_consumer (st : Store) (req : RegRequest)
    (hrole : req.role ≠ Role.SELLER)
    (hpw : req.password = req.password2)
    (hname : st.users.any (fun u => u.username = req.username) = false) :
    ∃ st2 user, registerUser st req = Except.ok (st2, user) ∧
      user.role = Role.CONSUMER := by
  have h1 : ¬ req.password ≠ req.password2 := by simp [hpw]
  have h3 : ¬ (req.role = Role.SELLER ∧ ¬ req.storeNamePresent = true) := by
    intro h
    exact hrole h.1
  unfold registerUser
  rw [if_neg h1, if_neg (by simp [hname]), if_neg h3]
  exact ⟨_, _, rfl, by simp [if_neg hrole]⟩

/-- A registration request asking for the ADMIN role. -/
def adminReq : RegRequest :=
  { username := "root1", email := "root1@example.com", password := "pw123456",
    password2 := "pw123456", role := Role.ADMIN }

/-- Witness for C10: on the empty store, the concrete ADMIN request is
accepted and stored as CONSUMER. -/
theorem claim_C10_witness :
    ∃ st2 user, registerUser {} adminReq = Except.ok (st2, user) ∧
      user.role = Role.CONSUMER :=
  claim_C10_non_seller_role_forced_consumer {} adminReq (by decide) rfl rfl

/-- A user whose application role is ADMIN but whose Django staff flag is
off. -/
def adminNoStaff : User :=
  { uid := 7, username := "root", email := "root@example.com",
    role := Role.ADMIN, is_staff := false }

/-- Store containing only `adminNoStaff`. -/
def c8Store : Store :=
  { users := [adminNoStaff] }

/-- Counterexample to C8: an actor that IS an admin in the sense of the data
model (`is_admin_user`, role ADMIN) is nevertheless rejected by
`admin_dashboard`, because the code gates on the Django `is_staff` flag, not
on the role. -/
theorem claim_C8_counterexample :
    adminNoStaff.is_admin_user = true ∧
    adminDashboard c8Store adminNoStaff =
      Except.error ApiError.permissionDenied := by
  exact ⟨rfl, rfl⟩

/-- Claim C8 as amended: `admin_dashboard` fails with `PermissionError`
exactly when the actor's `is_staff` flag is off (regardless of role), and
succeeds exactly when it is on. -/
theorem claim_C8_amended (st : Store) (u : User) :
    (adminDashboard st u = Except.error ApiError.permissionDenied ↔
      u.is_staff = false) ∧
    ((∃ overview, adminDashboard st u = Except.ok overview) ↔
      u.is_staff = true) := by
  unfold adminDashboard
  cases h : u.is_staff <;> simp [h]

/-- A sale dated 10 days before `now = 20`. -/
def staleSale : ProductSale :=
  { sid := 0, product := 0, seller := 0, quantity := 1, price_at_sale := 10,
    sale_date := 10 }

/-- Store whose only sale is 10 days old. -/
def c7Store : Store :=
  { users := [sellerAda], sales := [staleSale], now := 20 }

/-- The report `sales_report` actually produces for an empty window. -/
def emptyWindowReport : SalesReport :=
  { summary :=
      { total_sales := 0, total_revenue := none, average_sale := none,
        total_units := none }
    daily_breakdown := [] }

/-- Counterexample to C7: with the seller's only sale 10 days old and
`days = 7`, the report's `total_revenue` is `None` (Django `Sum` over no
rows), not zero — refuting "every aggregate total is reported as zero, never
null". -/
theorem claim_C7_counterexample :
    ¬ (∀ report, salesReport c7Store sellerAda 7 = Except.ok report →
        report.summary.total_revenue = some 0) := by
  intro h
  have heval := h emptyWindowReport rfl
  simp [emptyWindowReport] at heval

/-- Claim C7 as amended: for an empty reporting window the count aggregate is
0 and the daily breakdown is empty (as claimed), but the `Sum`/`Avg`
aggregates (`total_revenue`, `average_sale`, `total_units`) are null, not
zero; no error is raised. -/
theorem claim_C7_amended (st : Store) (u : User) (days : Nat)
    (hseller : u.is_seller = true)
    (hempty : st.sales.filter
        (fun s => s.seller = u.uid && s.sale_date ≥ st.now - (days : Int)) = []) :
    salesReport st u days = Except.ok emptyWindowReport := by
  unfold salesReport
  rw [if_neg (by simp [hseller])]
  simp only [hempty]
  rfl

/-- Witness for C7 amended, at the spec's own example (sales only 10 days
old, `days = 7`). -/
theorem claim_C7_witness :
    salesReport c7Store sellerAda 7 = Except.ok emptyWindowReport :=
  claim_C7_amended c7Store sellerAda 7 rfl rfl

/-- The category row created for the name "Books". -/
def booksCat : Category :=
  { cid := 0, name := "Books", slug := "books" }

/-- Store after creating "Books". -/
def booksStore1 : Store :=
  { categories := [booksCat] }

/-- The category row created for the distinct name "BOOKS": same slugified
form as "Books", so the suffix counter fires. -/
def booksCat2 : Category :=
  { cid := 1, name := "BOOKS", slug := "books-1" }

/-- Counterexample to C5: creating a category named "Books" twice does NOT
yield slugs `books` and `books-1` — `Category.name` is unique
(dev.py:107-111) and the serializer's uniqueness validator rejects the second
creation with a `ValidationError` on `name`. -/
theorem claim_C5_counterexample :
    createCategory {} "Books" none = Except.ok (booksStore1, booksCat) ∧
    createCategory booksStore1 "Books" none =
      Except.error (ApiError.validationError "name") := by
  constructor <;> rfl

/-- Claim C5 as amended: the slug is the lower-cased/dashified name with an
incrementing suffix on collision, but a slug collision can only come from a
*distinct* name (same name twice is a `ValidationError`): "Books" then
"BOOKS" yield `books` then `books-1`. -/
theorem claim_C5_amended :
    createCategory {} "Books" none = Except.ok (booksStore1, booksCat) ∧
    createCategory booksStore1 "BOOKS" none =
      Except.ok ({ categories := [booksCat, booksCat2] }, booksCat2) := by
  constructor <;> rfl

/-- Category "A" whose parent is "B". -/
def catA6 : Category :=
  { cid := 0, name := "A", slug := "a", parent_category := some 1 }

/-- Category "B" whose parent is "A": together with `catA6` a 2-cycle. -/
def catB6 : Category :=
  { cid := 1, name := "B", slug := "b", parent_category := some 0 }

/-- A store whose parent chain contains a cycle (creatable through updates:
`validate_parent_category` only rejects a category being its own parent). -/
def cycStore : Store :=
  { categories := [catA6, catB6] }

/-- On the 2-cycle the `while parent:` loop never reaches a root: from either
parent pointer, every amount of fuel is exhausted. -/
theorem cycStore_loop_never_ends (n : Nat) :
    ∀ path, fullPathLoop cycStore n (some 0) path = none ∧
      fullPathLoop cycStore n (some 1) path = none := by
  induction n with
  | zero => intro path; exact ⟨rfl, rfl⟩
  | succ m ih =>
      intro path
      exact ⟨(ih ("A" :: path)).2, (ih ("B" :: path)).1⟩

/-- Counterexample to C6: on the cyclic store, `get_full_path` of category
"A" produces no result at any depth — the loop has no visited set or depth
bound and no `CorruptHierarchyError` exists in the code; it simply never
terminates. -/
theorem claim_C6_counterexample :
    ¬ ∃ n path, getFullPath cycStore catA6 n = some path := by
  rintro ⟨n, path, h⟩
  have hnone : getFullPath cycStore catA6 n = none :=
    (cycStore_loop_never_ends n ["A"]).2
  rw [hnone] at h
  cases h

/-- Root category "A" of an acyclic 3-level chain. -/
def chainA : Category :=
  { cid := 0, name := "A", slug := "a" }

/-- Middle category "B" (child of "A"). -/
def chainB : Category :=
  { cid := 1, name := "B", slug := "b", parent_category := some 0 }

/-- Leaf category "C" (child of "B"). -/
def chainC : Category :=
  { cid := 2, name := "C", slug := "c", parent_category := some 1 }

/-- The acyclic 3-level store A → B → C. -/
def chainStore : Store :=
  { categories := [chainA, chainB, chainC] }

/-- Claim C6 as amended: on an acyclic chain `get_full_path` terminates and
returns the names in root-to-leaf order (the spec's 3-level example yields
`["A", "B", "C"]`), but on a cyclic parent chain it loops forever — no
`CorruptHierarchyError` is surfaced. -/
theorem claim_C6_amended :
    (∀ n, getFullPath cycStore catA6 n = none) ∧
    getFullPath chainStore chainC 3 = some ["A", "B", "C"] := by
  constructor
  · intro n
    exact (cycStore_loop_never_ends n ["A"]).2
  · rfl

/-! ## Descendants of a category (claim C9) -/

/-- `c` lies below `a` in the subcategory relation via a chain of exactly `k`
child steps (`k ≥ 1`). -/
inductive DescN (cats : List Category) : Nat → Nat → Nat → Prop
  | child {a c : Nat} : c ∈ subcatIds cats a → DescN cats a c 1
  | step {a b c k : Nat} : b ∈ subcatIds cats a → DescN cats b c k →
      DescN cats a c (k + 1)

/-- `c` is a transitive descendant of `a`. -/
def Descendant (cats : List Category) (a c : Nat) : Prop :=
  ∃ k, DescN cats a c k

/-- Unfolding of one recursion level of the traversal. -/
theorem mem_getAllSubcategories_succ {cats : List Category} {fuel a c : Nat} :
    c ∈ getAllSubcategories cats (fuel + 1) a ↔
      c ∈ subcatIds cats a ∨
        ∃ b ∈ subcatIds cats a, c ∈ getAllSubcategories cats fuel b := by
  simp [getAllSubcategories, List.mem_append, List.mem_flatMap]

/-- Soundness of the traversal: everything collected is a transitive
descendant, by a chain no longer than the fuel. -/
theorem getAllSubcategories_sound {cats : List Category} :
    ∀ {fuel a c : Nat}, c ∈ getAllSubcategories cats fuel a →
      ∃ k, k ≤ fuel ∧ DescN cats a c k := by
  intro fuel
  induction fuel with
  | zero => intro a c h; simp [getAllSubcategories] at h
  | succ m ih =>
      intro a c h
      rcases mem_getAllSubcategories_succ.mp h with hc | ⟨b, hb, hc⟩
      · exact ⟨1, Nat.succ_le_succ (Nat.zero_le m), DescN.child hc⟩
      · obtain ⟨k, hk, hd⟩ := ih hc
        exact ⟨k + 1, Nat.succ_le_succ hk, DescN.step hb hd⟩

/-- Completeness of the traversal: a descendant reachable in `k ≤ fuel` steps
is collected. -/
theorem getAllSubcategories_complete {cats : List Category} {a c k : Nat}
    (hd : DescN cats a c k) :
    ∀ {fuel : Nat}, k ≤ fuel → c ∈ getAllSubcategories cats fuel a := by
  induction hd with
  | child hc =>
      intro fuel hk
      match fuel, hk with
      | m + 1, _ => exact mem_getAllSubcategories_succ.mpr (Or.inl hc)
  | step hb _ ih =>
      intro fuel hk
      match fuel, hk with
      | m + 1, hk =>
          exact mem_getAllSubcategories_succ.mpr
            (Or.inr ⟨_, hb, ih (Nat.le_of_succ_le_succ hk)⟩)

/-- Claim C9 (confirmed): provided the subcategory relation has no chain
longer than the fuel (the data model forbids cycles, and in a finite acyclic
store every chain is shorter than the number of categories),
`CategoryViewSet.products` returns exactly the `is_active` products whose
category is the requested one or a transitive descendant of it. -/
theorem claim_C9_products_in_category_tree (st : Store) (cid fuel : Nat)
    (p : Product)
    (hbound : ∀ a c k, DescN st.categories a c k → k ≤ fuel) :
    p ∈ categoryProducts st fuel cid ↔
      p ∈ st.products ∧ p.is_active = true ∧
        (p.category = cid ∨ Descendant st.categories cid p.category) := by
  unfold categoryProducts
  rw [List.mem_filter]
  simp only [Bool.and_eq_true, List.contains, List.elem_iff, decide_eq_true_eq,
    List.mem_cons]
  constructor
  · rintro ⟨hp, hcat | hsub, hact⟩
    · exact ⟨hp, hact, Or.inl hcat⟩
    · obtain ⟨k, _, hd⟩ := getAllSubcategories_sound hsub
      exact ⟨hp, hact, Or.inr ⟨k, hd⟩⟩
  · rintro ⟨hp, hact, hcat | ⟨k, hd⟩⟩
    · exact ⟨hp, Or.inl hcat, hact⟩
    · exact ⟨hp, Or.inr (getAllSubcategories_complete hd (hbound _ _ _ hd)),
        hact⟩

/-- Subcategory "Phones" of `electronicsCat`. -/
def phonesCat : Category :=
  { cid := 1, name := "Phones", slug := "phones", parent_category := some 0 }

/-- An active phone listed under "Phones". -/
def phoneActive : Product :=
  { pid := 0, name := "Phone A", price := 100, sku := "PH-A", category := 1,
    seller := 0, stock_quantity := 5, is_active := true }

/-- An inactive phone listed under "Phones". -/
def phoneInactive : Product :=
  { pid := 1, name := "Phone B", price := 100, sku := "PH-B", category := 1,
    seller := 0, stock_quantity := 5, is_active := false }

/-- The spec's example store: Electronics → Phones with one active and one
inactive product. -/
def treeStore : Store :=
  { users := [sellerAda], categories := [electronicsCat, phonesCat],
    products := [phoneActive, phoneInactive] }

/-- In the example store the only child link is Phones (1) under
Electronics (0). -/
theorem treeStore_subcat (a : Nat) :
    subcatIds [electronicsCat, phonesCat] a = if a = 0 then [1] else [] := by
  by_cases h : a = 0
  · subst h; rfl
  · simp [subcatIds, electronicsCat, phonesCat, List.filter, h, Ne.symm h]

/-- No descendant chain in the example store is longer than 2. -/
theorem treeStore_depth_le (a c k : Nat)
    (h : DescN [electronicsCat, phonesCat] a c k) : k ≤ 2 := by
  have hno : ∀ c k, ¬ DescN [electronicsCat, phonesCat] 1 c k := by
    intro c k h
    cases h with
    | child hc => rw [treeStore_subcat] at hc; simp at hc
    | step hb _ => rw [treeStore_subcat] at hb; simp at hb
  cases h with
  | child => decide
  | step hb hd =>
      rw [treeStore_subcat] at hb
      by_cases ha : a = 0
      · rw [if_pos ha] at hb
        simp at hb
        subst hb
        exact absurd hd (hno _ _)
      · rw [if_neg ha] at hb
        simp at hb

/-- Witness for C9 at the spec's example: the active phone is returned for
the Electronics tree, the inactive one is not. -/
theorem claim_C9_witness :
    phoneActive ∈ categoryProducts treeStore 2 0 ∧
    phoneInactive ∉ categoryProducts treeStore 2 0 := by
  constructor
  · exact (claim_C9_products_in_category_tree treeStore 0 2 phoneActive
      (fun a c k h => treeStore_depth_le a c k h)).mpr
      ⟨by decide, rfl, Or.inr ⟨1, DescN.child (by decide)⟩⟩
  · intro hmem
    have h := (claim_C9_products_in_category_tree treeStore 0 2 phoneInactive
      (fun a c k h => treeStore_depth_le a c k h)).mp hmem
    exact absurd h.2.1 (by decide)
